import Mathlib

/-!
Shallow embedding of `src/examples/pulumi/python/__main__.py`, a declarative
Pulumi program that reads two optional configuration strings and declares a
VPC, a subnet, a security group, an S3 bucket and an EC2 instance, then
exports six named output values.  Resource identifiers produced by the
provisioning engine are modelled symbolically (`Attr`), since the script only
references them, never inspects them.
-/

namespace DriftDetector

/-- Configuration context: the two optional string keys the script reads via
`config.get("environment")` and `config.get("instanceType")`.  `none` models
an unset key; `some ""` models a key set to the empty string. -/
structure Config where
  environment : Option String
  instanceType : Option String
  deriving DecidableEq, Repr

/-- Python `x or default` applied to an optional string: `None` and the empty
string are falsy, any other string is returned unchanged. -/
def pyOr : Option String → String → String
  | none, d => d
  | some s, d => if s = "" then d else s

/-- Line 7: `environment = config.get("environment") or "dev"`. -/
def environment (cfg : Config) : String :=
  pyOr cfg.environment "dev"

/-- Line 8: `instance_type = config.get("instanceType") or "t3.micro"`. -/
def instance_type (cfg : Config) : String :=
  pyOr cfg.instanceType "t3.micro"

/-- Symbolic names of the five resources declared by the script, in
declaration order (`webServer` stands for the `instance` variable, the
resource named "web-server"). -/
inductive Res where
  | vpc
  | subnet
  | sg
  | bucket
  | webServer
  deriving DecidableEq, Repr

/-- Position of each resource declaration in the script, top to bottom. -/
def declOrder : Res → Nat
  | .vpc => 0
  | .subnet => 1
  | .sg => 2
  | .bucket => 3
  | .webServer => 4

/-- An output attribute of a resource (`vpc.id`, `instance.public_ip`, ...),
referenced symbolically before the engine resolves it. -/
inductive Attr where
  | id (r : Res)
  | publicIp (r : Res)
  deriving DecidableEq, Repr

/-- The resource an attribute belongs to. -/
def Attr.res : Attr → Res
  | .id r => r
  | .publicIp r => r

/-- Whether an attribute is a resource identifier (as opposed to a derived
network address). -/
def Attr.isId : Attr → Bool
  | .id _ => true
  | .publicIp _ => false

/-- Arguments of `aws.ec2.Vpc`, as used at lines 12-19. -/
structure VpcArgs where
  name : String
  cidr_block : String
  enable_dns_hostnames : Bool
  enable_dns_support : Bool
  tags : List (String × String)
  deriving DecidableEq, Repr

/-- Lines 12-19: the VPC declaration. -/
def vpc (cfg : Config) : VpcArgs :=
  { name := "app-vpc"
    cidr_block := "10.0.0.0/16"
    enable_dns_hostnames := true
    enable_dns_support := true
    tags := [("Name", environment cfg ++ "-vpc"), ("Environment", environment cfg)] }

/-- Arguments of `aws.ec2.Subnet`, as used at lines 22-29. -/
structure SubnetArgs where
  name : String
  vpc_id : Attr
  cidr_block : String
  availability_zone : String
  tags : List (String × String)
  deriving DecidableEq, Repr

/-- Lines 22-29: the subnet declaration. -/
def subnet (cfg : Config) : SubnetArgs :=
  { name := "app-subnet"
    vpc_id := Attr.id Res.vpc
    cidr_block := "10.0.1.0/24"
    availability_zone := "us-east-1a"
    tags := [("Name", environment cfg ++ "-subnet"), ("Environment", environment cfg)] }

/-- Fields of `aws.ec2.SecurityGroupIngressArgs`. -/
structure SecurityGroupIngressArgs where
  protocol : String
  from_port : Nat
  to_port : Nat
  cidr_blocks : List String
  description : String
  deriving DecidableEq, Repr

/-- Fields of `aws.ec2.SecurityGroupEgressArgs`. -/
structure SecurityGroupEgressArgs where
  protocol : String
  from_port : Nat
  to_port : Nat
  cidr_blocks : List String
  description : String
  deriving DecidableEq, Repr

/-- Arguments of `aws.ec2.SecurityGroup`, as used at lines 32-62. -/
structure SecurityGroupArgs where
  name : String
  vpc_id : Attr
  description : String
  ingress : List SecurityGroupIngressArgs
  egress : List SecurityGroupEgressArgs
  tags : List (String × String)
  deriving DecidableEq, Repr

/-- Lines 32-62: the security-group declaration. -/
def security_group (cfg : Config) : SecurityGroupArgs :=
  { name := "app-sg"
    vpc_id := Attr.id Res.vpc
    description := "Allow HTTP and SSH traffic"
    ingress :=
      [{ protocol := "tcp"
         from_port := 80
         to_port := 80
         cidr_blocks := ["0.0.0.0/0"]
         description := "Allow HTTP" },
       { protocol := "tcp"
         from_port := 22
         to_port := 22
         cidr_blocks := ["0.0.0.0/0"]
         description := "Allow SSH" }]
    egress :=
      [{ protocol := "-1"
         from_port := 0
         to_port := 0
         cidr_blocks := ["0.0.0.0/0"]
         description := "Allow all outbound" }]
    tags := [("Name", environment cfg ++ "-sg"), ("Environment", environment cfg)] }

/-- Fields of the innermost SSE-by-default argument class. -/
structure BucketServerSideEncryptionConfigurationRuleApplyServerSideEncryptionByDefaultArgs where
  sse_algorithm : String
  deriving DecidableEq, Repr

/-- Fields of `aws.s3.BucketServerSideEncryptionConfigurationRuleArgs`. -/
structure BucketServerSideEncryptionConfigurationRuleArgs where
  apply_server_side_encryption_by_default :
    BucketServerSideEncryptionConfigurationRuleApplyServerSideEncryptionByDefaultArgs
  deriving DecidableEq, Repr

/-- Fields of `aws.s3.BucketServerSideEncryptionConfigurationArgs`. -/
structure BucketServerSideEncryptionConfigurationArgs where
  rule : BucketServerSideEncryptionConfigurationRuleArgs
  deriving DecidableEq, Repr

/-- Fields of `aws.s3.BucketVersioningArgs`. -/
structure BucketVersioningArgs where
  enabled : Bool
  deriving DecidableEq, Repr

/-- Arguments of `aws.s3.Bucket`, as used at lines 65-80. -/
structure BucketArgs where
  name : String
  acl : String
  versioning : BucketVersioningArgs
  server_side_encryption_configuration : BucketServerSideEncryptionConfigurationArgs
  tags : List (String × String)
  deriving DecidableEq, Repr

/-- Lines 65-80: the S3 bucket declaration. -/
def bucket (cfg : Config) : BucketArgs :=
  { name := "app-bucket"
    acl := "private"
    versioning := { enabled := true }
    server_side_encryption_configuration :=
      { rule := { apply_server_side_encryption_by_default := { sse_algorithm := "AES256" } } }
    tags := [("Name", environment cfg ++ "-bucket"), ("Environment", environment cfg)] }

/-- Fields of `pulumi.ResourceOptions` used by the script. -/
structure ResourceOptions where
  depends_on : List Res
  deriving DecidableEq, Repr

/-- Arguments of `aws.ec2.Instance`, as used at lines 83-95, together with
the resource options passed via `opts=`. -/
structure InstanceArgs where
  name : String
  ami : String
  instance_type : String
  subnet_id : Attr
  vpc_security_group_ids : List Attr
  tags : List (String × String)
  opts : ResourceOptions
  deriving DecidableEq, Repr

/-- Lines 83-95: the EC2 instance declaration (variable `instance` in the
script, named "web-server"). -/
def webServer (cfg : Config) : InstanceArgs :=
  { name := "web-server"
    ami := "ami-0c55b159cbfafe1f0"
    instance_type := instance_type cfg
    subnet_id := Attr.id Res.subnet
    vpc_security_group_ids := [Attr.id Res.sg]
    tags := [("Name", environment cfg ++ "-web-server"),
             ("Environment", environment cfg),
             ("Role", "web")]
    opts := { depends_on := [Res.subnet, Res.sg] } }

/-- Lines 98-103: the six `pulumi.export` calls, in order. -/
def exports : List (String × Attr) :=
  [("vpcId", Attr.id Res.vpc),
   ("subnetId", Attr.id Res.subnet),
   ("securityGroupId", Attr.id Res.sg),
   ("bucketName", Attr.id Res.bucket),
   ("instanceId", Attr.id Res.webServer),
   ("instancePublicIp", Attr.publicIp Res.webServer)]

/-- The full declared program: the five resource records and the export
list, as produced by one top-to-bottom evaluation of the script. -/
structure Program where
  vpc : VpcArgs
  subnet : SubnetArgs
  security_group : SecurityGroupArgs
  bucket : BucketArgs
  webServer : InstanceArgs
  exports : List (String × Attr)
  deriving DecidableEq, Repr

/-- Evaluation of the whole script on a configuration. -/
def program (cfg : Config) : Program :=
  { vpc := vpc cfg
    subnet := subnet cfg
    security_group := security_group cfg
    bucket := bucket cfg
    webServer := webServer cfg
    exports := exports }

/-- Evaluation of the script as a fallible computation.  The source contains
no raise, no assert and no fallible call (`config.get` returns `None` rather
than raising), so evaluation always succeeds with the declared program. -/
def run (cfg : Config) : Except String Program :=
  Except.ok (program cfg)

/-- Cross-entity references made by each resource declaration: the resources
whose symbolic attributes appear among the declaration's arguments. -/
def refsOf (cfg : Config) : Res → List Res
  | .vpc => []
  | .subnet => [(subnet cfg).vpc_id.res]
  | .sg => [(security_group cfg).vpc_id.res]
  | .bucket => []
  | .webServer =>
      (webServer cfg).subnet_id.res :: (webServer cfg).vpc_security_group_ids.map Attr.res

/-- A configuration with both keys unset. -/
def cfgNone : Config :=
  { environment := none, instanceType := none }

/-- A configuration with both keys set to non-empty strings. -/
def cfgProd : Config :=
  { environment := some "prod", instanceType := some "t3.large" }

/-- A configuration with both keys set to the empty string (falsy in
Python). -/
def cfgEmpty : Config :=
  { environment := some "", instanceType := some "" }

/-- C1: for every configuration, the security-group declaration has exactly
two ingress rules — tcp 80-80 from ["0.0.0.0/0"], then tcp 22-22 from
["0.0.0.0/0"] — and exactly one egress rule, protocol "-1", ports 0-0, to
["0.0.0.0/0"]. -/
theorem security_group_rule_shape (cfg : Config) :
    (security_group cfg).ingress =
      [{ protocol := "tcp", from_port := 80, to_port := 80,
         cidr_blocks := ["0.0.0.0/0"], description := "Allow HTTP" },
       { protocol := "tcp", from_port := 22, to_port := 22,
         cidr_blocks := ["0.0.0.0/0"], description := "Allow SSH" }]
    ∧ (security_group cfg).egress =
      [{ protocol := "-1", from_port := 0, to_port := 0,
         cidr_blocks := ["0.0.0.0/0"], description := "Allow all outbound" }] :=
  ⟨rfl, rfl⟩

/-- C2: an unset or empty (falsy) "environment" key yields "dev", an unset or
empty "instanceType" key yields "t3.micro", and a non-empty configured string
is taken unchanged for either key. -/
theorem config_default_substitution (cfg : Config) :
    ((cfg.environment = none ∨ cfg.environment = some "") → environment cfg = "dev")
    ∧ ((cfg.instanceType = none ∨ cfg.instanceType = some "") →
        instance_type cfg = "t3.micro")
    ∧ (∀ s : String, cfg.environment = some s → s ≠ "" → environment cfg = s)
    ∧ (∀ s : String, cfg.instanceType = some s → s ≠ "" → instance_type cfg = s) := by
  refine ⟨?_, ?_, ?_, ?_⟩
  · rintro (h | h) <;> simp [environment, pyOr, h]
  · rintro (h | h) <;> simp [instance_type, pyOr, h]
  · intro s hs hne
    simp [environment, pyOr, hs, hne]
  · intro s hs hne
    simp [instance_type, pyOr, hs, hne]

/-- C2 witness: the defaults at a fully unset configuration, and the
configured values at a fully set one. -/
theorem config_default_substitution_witness :
    environment cfgNone = "dev" ∧ instance_type cfgNone = "t3.micro"
    ∧ environment cfgProd = "prod" ∧ instance_type cfgProd = "t3.large" :=
  ⟨(config_default_substitution cfgNone).1 (Or.inl rfl),
   (config_default_substitution cfgNone).2.1 (Or.inl rfl),
   (config_default_substitution cfgProd).2.2.1 "prod" rfl (by decide),
   (config_default_substitution cfgProd).2.2.2 "t3.large" rfl (by decide)⟩

/-- C3: for every configuration, each of the five resources carries a "Name"
tag equal to the derived environment value followed by its fixed suffix. -/
theorem name_tag_interpolation (cfg : Config) :
    (vpc cfg).tags.lookup "Name" = some (environment cfg ++ "-vpc")
    ∧ (subnet cfg).tags.lookup "Name" = some (environment cfg ++ "-subnet")
    ∧ (security_group cfg).tags.lookup "Name" = some (environment cfg ++ "-sg")
    ∧ (bucket cfg).tags.lookup "Name" = some (environment cfg ++ "-bucket")
    ∧ (webServer cfg).tags.lookup "Name" = some (environment cfg ++ "-web-server") := by
  refine ⟨?_, ?_, ?_, ?_, ?_⟩ <;>
    simp [vpc, subnet, security_group, bucket, webServer, List.lookup]

/-- C4: for every configuration, the bucket declaration enables versioning
and selects the AES256 encryption algorithm. -/
theorem bucket_versioning_and_encryption (cfg : Config) :
    (bucket cfg).versioning.enabled = true
    ∧ (bucket cfg).server_side_encryption_configuration.rule.apply_server_side_encryption_by_default.sse_algorithm
        = "AES256" :=
  ⟨rfl, rfl⟩

/-- C5: for every configuration, the instance declaration references the
subnet's id, lists the security group's id among its security-group ids, and
its resource options depend on exactly the subnet and the security group. -/
theorem instance_references_and_depends_on (cfg : Config) :
    (webServer cfg).subnet_id = Attr.id Res.subnet
    ∧ Attr.id Res.sg ∈ (webServer cfg).vpc_security_group_ids
    ∧ (webServer cfg).opts.depends_on = [Res.subnet, Res.sg] := by
  refine ⟨rfl, ?_, rfl⟩
  simp [webServer]

/-- C6 counterexample: the number of exports whose value is a resource
identifier is five, not four as the claim describes. -/
theorem exports_not_four_identifiers :
    ¬ (exports.filter (fun e => e.2.isId)).length = 4 := by
  decide

/-- C6 amended: the script publishes exactly the six named exports — five
resource identifiers (vpcId, subnetId, securityGroupId, bucketName,
instanceId) and one derived network address (instancePublicIp) — and no
others. -/
theorem exports_exact_shape :
    exports =
      [("vpcId", Attr.id Res.vpc),
       ("subnetId", Attr.id Res.subnet),
       ("securityGroupId", Attr.id Res.sg),
       ("bucketName", Attr.id Res.bucket),
       ("instanceId", Attr.id Res.webServer),
       ("instancePublicIp", Attr.publicIp Res.webServer)]
    ∧ (exports.filter (fun e => e.2.isId)).length = 5
    ∧ (exports.filter (fun e => e.2.isId = false)).length = 1 := by
  refine ⟨rfl, ?_, ?_⟩ <;> decide

/-- C7: every cross-entity reference points to a resource declared strictly
earlier in the script; in particular the subnet and security group reference
only the VPC and the instance references only the subnet and security
group. -/
theorem references_respect_declaration_order (cfg : Config) :
    (∀ r r' : Res, r' ∈ refsOf cfg r → declOrder r' < declOrder r)
    ∧ refsOf cfg Res.subnet = [Res.vpc]
    ∧ refsOf cfg Res.sg = [Res.vpc]
    ∧ refsOf cfg Res.webServer = [Res.subnet, Res.sg] := by
  refine ⟨?_, rfl, rfl, rfl⟩
  intro r r' h
  cases r <;>
    simp [refsOf, subnet, security_group, webServer, Attr.res] at h <;>
    first
      | (subst h; decide)
      | (rcases h with h | h <;> subst h <;> decide)

/-- C7 witness: the backward-reference bound applied to the instance's
reference to the subnet, at the unset configuration. -/
theorem references_respect_declaration_order_witness :
    declOrder Res.subnet < declOrder Res.webServer :=
  (references_respect_declaration_order cfgNone).1 Res.webServer Res.subnet (by decide)

/-- C8: evaluation of the script succeeds on every configuration, and the
resulting program depends on the configuration only through the two
default-substituted values. -/
theorem run_total_and_config_determined (cfg cfg' : Config) :
    (run cfg).isOk = true
    ∧ (environment cfg = environment cfg' → instance_type cfg = instance_type cfg' →
        program cfg = program cfg') := by
  refine ⟨rfl, ?_⟩
  intro h1 h2
  simp [program, vpc, subnet, security_group, bucket, webServer, h1, h2]

/-- C8 witness: evaluation succeeds at the unset configuration, and the
all-empty configuration (falsy values) yields the same program as the unset
one. -/
theorem run_total_and_config_determined_witness :
    (run cfgNone).isOk = true ∧ program cfgNone = program cfgEmpty :=
  ⟨(run_total_and_config_determined cfgNone cfgEmpty).1,
   (run_total_and_config_determined cfgNone cfgEmpty).2 (by decide) (by decide)⟩

/-- C9: for every configuration, the instance's image identifier is the
fixed literal "ami-0c55b159cbfafe1f0" and its size class is the derived
instance-type value. -/
theorem instance_ami_and_size (cfg : Config) :
    (webServer cfg).ami = "ami-0c55b159cbfafe1f0"
    ∧ (webServer cfg).instance_type = instance_type cfg :=
  ⟨rfl, rfl⟩

/-- C10: for every configuration, all five resources carry an "Environment"
tag equal to the derived environment value, and the instance additionally
carries a "Role" tag equal to "web". -/
theorem environment_and_role_tags (cfg : Config) :
    (vpc cfg).tags.lookup "Environment" = some (environment cfg)
    ∧ (subnet cfg).tags.lookup "Environment" = some (environment cfg)
    ∧ (security_group cfg).tags.lookup "Environment" = some (environment cfg)
    ∧ (bucket cfg).tags.lookup "Environment" = some (environment cfg)
    ∧ (webServer cfg).tags.lookup "Environment" = some (environment cfg)
    ∧ (webServer cfg).tags.lookup "Role" = some "web" := by
  refine ⟨?_, ?_, ?_, ?_, ?_, ?_⟩ <;>
    simp [vpc, subnet, security_group, bucket, webServer, List.lookup]

end DriftDetector
